import Mathlib

/-!
# Verification of the Aura-score update cycle (`src/update.py`)

A shallow embedding of the single update cycle implemented in
`src/update.py` (function `update_aura_scores` plus the module-level
pre-flight checks), together with theorems settling the specification
claims about it.

Modelling conventions:
* Python floats are modelled as rationals (`ℚ`).
* `json.loads` is modelled by an executable JSON parser `jsonLoads`
  over the JSON grammar (finite numbers only; the non-standard
  `Infinity`/`NaN` extensions have no rational counterpart and play no
  role in any claim).
* Python's builtin `float(·)` applied to a JSON-decoded value is
  modelled by `pyFloat`: it succeeds on numbers and booleans, parses
  strings as float literals (raising `ValueError` on failure), and
  raises `TypeError` on `None`, lists and dicts.
* `round(x, 2)` is modelled by `pyRound2` (round-half-to-even at two
  decimal places, Python's rounding mode).
* The effectful boundary of the script (reading `data.json`, the single
  model call, the wall clock, writing `data.json`) is made explicit:
  the cycle is a pure function of the load result, the gateway result
  and the timestamp string, returning the process exit code together
  with the document written to disk, if any.
-/

/-- A JSON value as produced by Python's `json.loads`: object members are
kept in parse order (lookup later models Python-dict semantics, where a
duplicated key keeps its last binding). -/
inductive Json where
  | null
  | bool (b : Bool)
  | num (q : ℚ)
  | str (s : String)
  | arr (elems : List Json)
  | obj (members : List (String × Json))

/-- Skip JSON insignificant whitespace. -/
def skipWs : List Char → List Char
  | c :: cs =>
      if c = ' ' ∨ c = '\t' ∨ c = '\n' ∨ c = '\r' then skipWs cs else c :: cs
  | [] => []

/-- Take a maximal run of decimal digits, returned as digit values. -/
def takeDigits : List Char → List Nat × List Char
  | c :: cs =>
      if c.isDigit then
        let p := takeDigits cs
        ((c.toNat - 48) :: p.1, p.2)
      else ([], c :: cs)
  | [] => ([], [])

/-- Assemble a digit-value list (most significant first) into a natural. -/
def digitsToNat (ds : List Nat) : Nat :=
  ds.foldl (fun a d => a * 10 + d) 0

/-- Value of a hexadecimal digit, if any. -/
def hexVal (c : Char) : Option Nat :=
  if c.isDigit then some (c.toNat - 48)
  else if 'a' ≤ c ∧ c ≤ 'f' then some (c.toNat - 87)
  else if 'A' ≤ c ∧ c ≤ 'F' then some (c.toNat - 55)
  else none

/-- Parse the body of a JSON string (the opening quote already consumed),
handling the escape sequences and rejecting raw control characters. -/
def parseStringAux : Nat → List Char → Option (List Char × List Char)
  | 0, _ => none
  | _, [] => none
  | fuel + 1, c :: cs =>
      if c = '"' then some ([], cs)
      else if c = '\\' then
        match cs with
        | [] => none
        | e :: cs2 =>
            if e = '"' ∨ e = '\\' ∨ e = '/' then
              (parseStringAux fuel cs2).map (fun p => (e :: p.1, p.2))
            else if e = 'b' then
              (parseStringAux fuel cs2).map (fun p => ('\x08' :: p.1, p.2))
            else if e = 'f' then
              (parseStringAux fuel cs2).map (fun p => ('\x0c' :: p.1, p.2))
            else if e = 'n' then
              (parseStringAux fuel cs2).map (fun p => ('\n' :: p.1, p.2))
            else if e = 'r' then
              (parseStringAux fuel cs2).map (fun p => ('\r' :: p.1, p.2))
            else if e = 't' then
              (parseStringAux fuel cs2).map (fun p => ('\t' :: p.1, p.2))
            else if e = 'u' then
              match cs2 with
              | h1 :: h2 :: h3 :: h4 :: cs3 =>
                  match hexVal h1, hexVal h2, hexVal h3, hexVal h4 with
                  | some a, some b, some c3, some d =>
                      (parseStringAux fuel cs3).map
                        (fun p =>
                          (Char.ofNat (((a * 16 + b) * 16 + c3) * 16 + d) :: p.1,
                           p.2))
                  | _, _, _, _ => none
              | _ => none
            else none
      else if c.toNat < 32 then none
      else (parseStringAux fuel cs).map (fun p => (c :: p.1, p.2))

/-- Parse a JSON number (sign, integer part, optional fraction, optional
exponent), following the JSON grammar (no leading zeros, a digit required
on each side of the decimal point that is present). -/
def parseNumber (cs : List Char) : Option (ℚ × List Char) :=
  let sp : Bool × List Char :=
    match cs with
    | '-' :: r => (true, r)
    | _ => (false, cs)
  match sp.2 with
  | [] => none
  | c :: r =>
      if ¬ c.isDigit then none
      else
        let ip : ℚ × List Char :=
          if c = '0' then ((0 : ℚ), r)
          else
            let p := takeDigits (c :: r)
            ((digitsToNat p.1 : ℚ), p.2)
        let fr : Option (ℚ × List Char) :=
          match ip.2 with
          | '.' :: r2 =>
              let p := takeDigits r2
              if p.1.isEmpty then none
              else some ((digitsToNat p.1 : ℚ) / ((10 : ℚ) ^ p.1.length), p.2)
          | rest => some ((0 : ℚ), rest)
        match fr with
        | none => none
        | some fp =>
            let ex : Option (ℤ × List Char) :=
              match fp.2 with
              | e :: r3 =>
                  if e = 'e' ∨ e = 'E' then
                    let sr : ℤ × List Char :=
                      match r3 with
                      | '+' :: r4 => (1, r4)
                      | '-' :: r4 => (-1, r4)
                      | _ => (1, r3)
                    let p := takeDigits sr.2
                    if p.1.isEmpty then none
                    else some (sr.1 * (digitsToNat p.1 : ℤ), p.2)
                  else some ((0 : ℤ), e :: r3)
              | [] => some ((0 : ℤ), [])
            match ex with
            | none => none
            | some ep =>
                let mag : ℚ := (ip.1 + fp.1) * (10 : ℚ) ^ ep.1
                some (if sp.1 then -mag else mag, ep.2)

mutual

/-- Parse one JSON value, leading whitespace allowed. `fuel` bounds the
recursion depth; `jsonLoads` supplies enough for any input. -/
def parseValue : Nat → List Char → Option (Json × List Char)
  | 0, _ => none
  | fuel + 1, cs =>
      match skipWs cs with
      | [] => none
      | c :: r =>
          if c = '\x7b' then
            match skipWs r with
            | '\x7d' :: r2 => some (Json.obj [], r2)
            | r2 => (parseMembers fuel r2).map (fun p => (Json.obj p.1, p.2))
          else if c = '[' then
            match skipWs r with
            | ']' :: r2 => some (Json.arr [], r2)
            | r2 => (parseElems fuel r2).map (fun p => (Json.arr p.1, p.2))
          else if c = '"' then
            (parseStringAux (r.length + 1) r).map
              (fun p => (Json.str (String.mk p.1), p.2))
          else
            match c :: r with
            | 't' :: 'r' :: 'u' :: 'e' :: rest => some (Json.bool true, rest)
            | 'f' :: 'a' :: 'l' :: 's' :: 'e' :: rest =>
                some (Json.bool false, rest)
            | 'n' :: 'u' :: 'l' :: 'l' :: rest => some (Json.null, rest)
            | cs2 => (parseNumber cs2).map (fun p => (Json.num p.1, p.2))

/-- Parse the members of a non-empty JSON object, up to and including the
closing brace. -/
def parseMembers : Nat → List Char → Option (List (String × Json) × List Char)
  | 0, _ => none
  | fuel + 1, cs =>
      match skipWs cs with
      | '"' :: r =>
          match parseStringAux (r.length + 1) r with
          | none => none
          | some kp =>
              match skipWs kp.2 with
              | ':' :: r3 =>
                  match parseValue fuel r3 with
                  | none => none
                  | some vp =>
                      match skipWs vp.2 with
                      | ',' :: r5 =>
                          (parseMembers fuel r5).map
                            (fun p =>
                              ((String.mk kp.1, vp.1) :: p.1, p.2))
                      | '\x7d' :: r5 => some ([(String.mk kp.1, vp.1)], r5)
                      | _ => none
              | _ => none
      | _ => none

/-- Parse the elements of a non-empty JSON array, up to and including the
closing bracket. -/
def parseElems : Nat → List Char → Option (List Json × List Char)
  | 0, _ => none
  | fuel + 1, cs =>
      match parseValue fuel cs with
      | none => none
      | some vp =>
          match skipWs vp.2 with
          | ',' :: r2 => (parseElems fuel r2).map (fun p => (vp.1 :: p.1, p.2))
          | ']' :: r2 => some ([vp.1], r2)
          | _ => none

end

/-- Model of Python's `json.loads`: parse one JSON document and require
that only whitespace follows it; `none` models `json.JSONDecodeError`. -/
def jsonLoads (s : String) : Option Json :=
  let cs := s.toList
  match parseValue (cs.length + 1) cs with
  | none => none
  | some vp => if (skipWs vp.2).isEmpty then some vp.1 else none

/-- Outcome of a Python builtin raising inside the update loop:
`float(·)` raises `ValueError` on an unparsable string (caught by the
loop's handler) and `TypeError` on `None`/list/dict (uncaught). -/
inductive PyErr where
  | valueError
  | typeError
  deriving Repr, DecidableEq

/-- Python whitespace as recognised by `str.strip()` (the ASCII part;
no claim involves the further Unicode space characters). -/
def pySpace (c : Char) : Bool :=
  c = ' ' ∨ c = '\t' ∨ c = '\n' ∨ c = '\r' ∨ c = '\x0b' ∨ c = '\x0c'

/-- Model of Python's `str.strip()` with no argument: drop leading and
trailing whitespace. -/
def pyStrip (s : String) : String :=
  String.mk (((s.toList.dropWhile pySpace).reverse.dropWhile pySpace).reverse)

/-- Model of Python's builtin `float(s)` on a string: strip whitespace,
optional sign, then `digits [. digits] | . digits`, optional exponent.
(`inf`/`nan` literals and underscore separators have no counterpart in
the rational model and play no role in any claim.) -/
def pyFloatStr (s : String) : Option ℚ :=
  let cs := (pyStrip s).toList
  let sp : Bool × List Char :=
    match cs with
    | '+' :: r => (false, r)
    | '-' :: r => (true, r)
    | _ => (false, cs)
  let ipp := takeDigits sp.2
  let mant : Option (ℚ × List Char) :=
    match ipp.2 with
    | '.' :: r2 =>
        let fpp := takeDigits r2
        if ipp.1.isEmpty ∧ fpp.1.isEmpty then none
        else
          some ((digitsToNat ipp.1 : ℚ) +
                  (digitsToNat fpp.1 : ℚ) / ((10 : ℚ) ^ fpp.1.length),
                fpp.2)
    | rest =>
        if ipp.1.isEmpty then none
        else some ((digitsToNat ipp.1 : ℚ), rest)
  match mant with
  | none => none
  | some mp =>
      let ex : Option (ℤ × List Char) :=
        match mp.2 with
        | e :: r3 =>
            if e = 'e' ∨ e = 'E' then
              let sr : ℤ × List Char :=
                match r3 with
                | '+' :: r4 => (1, r4)
                | '-' :: r4 => (-1, r4)
                | _ => (1, r3)
              let p := takeDigits sr.2
              if p.1.isEmpty then none
              else some (sr.1 * (digitsToNat p.1 : ℤ), p.2)
            else none
        | [] => some ((0 : ℤ), [])
      match ex with
      | none => none
      | some ep =>
          if ep.2.isEmpty then
            let mag : ℚ := mp.1 * (10 : ℚ) ^ ep.1
            some (if sp.1 then -mag else mag)
          else none

/-- Model of Python's builtin `float(·)` applied to a JSON-decoded value
(the argument of `float(aura_change)` in the script): numbers pass
through, booleans coerce to 0/1, strings are parsed as float literals
(`ValueError` on failure), and `None`, lists and dicts raise
`TypeError`. -/
def pyFloat : Json → Except PyErr ℚ
  | Json.num q => Except.ok q
  | Json.bool b => Except.ok (if b then 1 else 0)
  | Json.str s =>
      match pyFloatStr s with
      | some q => Except.ok q
      | none => Except.error PyErr.valueError
  | Json.null => Except.error PyErr.typeError
  | Json.arr _ => Except.error PyErr.typeError
  | Json.obj _ => Except.error PyErr.typeError

/-- Model of Python's `round(x, 2)`: round half to even at two decimal
places. -/
def pyRound2 (x : ℚ) : ℚ :=
  let y : ℚ := x * 100
  let f : ℤ := ⌊y⌋
  let frac : ℚ := y - f
  let r : ℤ :=
    if frac < 1 / 2 then f
    else if 1 / 2 < frac then f + 1
    else if f % 2 = 0 then f else f + 1
  (r : ℚ) / 100

/-- Model of Python's `dict.get(k, d)` for a dict built by `json.loads`
from an object literal: a duplicated key keeps its last binding. -/
def dictGet (kvs : List (String × Json)) (k : String) (d : Json) : Json :=
  match kvs.reverse.find? (fun kv => kv.1 = k) with
  | some kv => kv.2
  | none => d

/-- One tracked celebrity record of `data.json`, as read by the script:
`name` and a numeric `aura_score` are required by the update loop, while
`previous_aura_score` and `trend_7_days` may be absent (the loop reads
`trend_7_days` through `.get` with a default). -/
structure Celeb where
  name : String
  aura_score : ℚ
  previous_aura_score : Option ℚ
  trend_7_days : Option (List ℚ)
  deriving Repr, DecidableEq

/-- The persisted roster document: the `celebrities` list plus the
`last_updated` timestamp string (absent until first written). -/
structure Document where
  celebrities : List Celeb
  last_updated : Option String
  deriving Repr, DecidableEq

/-- Python's `trend[-6:]`: the last six elements (the whole list when it
is shorter). -/
def sliceLast6 (xs : List ℚ) : List ℚ :=
  xs.drop (xs.length - 6)

/-- Lines 110–117 of `update.py` for one celebrity once the numeric
`change_value` is fixed: stash the old score in `previous_aura_score`,
set `aura_score` to `round(old + change, 2)`, then rebuild
`trend_7_days` — defaulting an absent trend to seven copies of the *new*
score — as `trend[-6:]` with the new score appended. -/
def applyDelta (c : Celeb) (change_value : ℚ) : Celeb :=
  let newScore := pyRound2 (c.aura_score + change_value)
  let trend := c.trend_7_days.getD (List.replicate 7 newScore)
  { name := c.name
    aura_score := newScore
    previous_aura_score := some c.aura_score
    trend_7_days := some (sliceLast6 trend ++ [newScore]) }

/-- Lines 100–117 of `update.py` for one celebrity: fetch the delta by
exact name (default `0.0`), coerce it with `float(·)` where only
`ValueError` is caught (defaulting to `0.0` with a warning), then apply.
A `TypeError` from the coercion propagates out of the loop. -/
def updateCeleb (aura_changes : List (String × Json)) (c : Celeb) :
    Except PyErr Celeb :=
  let aura_change := dictGet aura_changes c.name (Json.num 0)
  match pyFloat aura_change with
  | Except.ok v => Except.ok (applyDelta c v)
  | Except.error PyErr.valueError => Except.ok (applyDelta c 0)
  | Except.error PyErr.typeError => Except.error PyErr.typeError

/-- The `for celeb in celebrities` loop: update each record in order; an
uncaught exception from any record aborts the loop (and hence the rest
of the cycle) before the document write. -/
def updateCelebs (aura_changes : List (String × Json)) :
    List Celeb → Except PyErr (List Celeb)
  | [] => Except.ok []
  | c :: rest =>
      match updateCeleb aura_changes c with
      | Except.error e => Except.error e
      | Except.ok c2 =>
          match updateCelebs aura_changes rest with
          | Except.error e => Except.error e
          | Except.ok rest2 => Except.ok (c2 :: rest2)

/-- The object returned by `model.generate_content`, reduced to the two
fields the script reads: `response.text` and
`response.candidates[0].content.parts[0].text`. -/
structure Response where
  text : String
  partText : String
  deriving Repr, DecidableEq

/-- Observable outcome of one invocation: the process exit status and
the document written to `data.json`, if any write happened at all. -/
structure CycleOutcome where
  exitCode : Nat
  written : Option Document
  deriving Repr, DecidableEq

/-- `update_aura_scores` (lines 38–136 of `update.py`) as a pure
function of its effect results.

* `loadRes` — reading and JSON-decoding `data.json`; failure lands in
  the outer `except Exception` handler: `exit(1)`, nothing written.
* Empty roster: the function returns (exit status 0) without calling
  the model and without writing.
* `gwRes` — the single `model.generate_content` call; both `except`
  arms around it call `exit(1)` before anything is written.
* An empty `response.text` or candidate part raises `ValueError`,
  caught by the `(json.JSONDecodeError, ValueError)` handler: `exit(1)`.
* `json.loads(response.text.strip())` failure: same handler, `exit(1)`.
* A decoded document that is not an object makes `aura_changes.get`
  raise `AttributeError` into the outer handler: `exit(1)`.
* A `TypeError` escaping the update loop: outer handler, `exit(1)`.
* Otherwise `last_updated` is stamped with `now` and the full document
  is written, exit status 0. -/
def update_aura_scores (loadRes : Except Unit Document)
    (gwRes : Except Unit Response) (now : String) : CycleOutcome :=
  match loadRes with
  | Except.error _ => { exitCode := 1, written := none }
  | Except.ok data =>
      if data.celebrities.isEmpty then
        { exitCode := 0, written := none }
      else
        match gwRes with
        | Except.error _ => { exitCode := 1, written := none }
        | Except.ok response =>
            if response.text = "" ∨ response.partText = "" then
              { exitCode := 1, written := none }
            else
              match jsonLoads (pyStrip response.text) with
              | none => { exitCode := 1, written := none }
              | some (Json.obj aura_changes) =>
                  match updateCelebs aura_changes data.celebrities with
                  | Except.error _ => { exitCode := 1, written := none }
                  | Except.ok newCelebs =>
                      { exitCode := 0
                        written :=
                          some { celebrities := newCelebs
                                 last_updated := some now } }
              | some _ => { exitCode := 1, written := none }

/-- The whole process (lines 10–22 then `update_aura_scores`): exit 1
before any work if `GEMINI_API_KEY` is unset or empty, exit 1 if client
configuration fails, otherwise run the cycle. -/
def runProcess (apiKey : Option String) (configureOk : Bool)
    (loadRes : Except Unit Document) (gwRes : Except Unit Response)
    (now : String) : CycleOutcome :=
  match apiKey with
  | none => { exitCode := 1, written := none }
  | some k =>
      if k = "" then { exitCode := 1, written := none }
      else if configureOk then update_aura_scores loadRes gwRes now
      else { exitCode := 1, written := none }

/-! ## Shared fixtures and helper lemmas -/

/-- A tracked celebrity with score 100 and no history yet. -/
def janeDoe : Celeb :=
  { name := "Jane Doe", aura_score := 100, previous_aura_score := none,
    trend_7_days := none }

/-- A one-entity roster document. -/
def docJane : Document :=
  { celebrities := [janeDoe], last_updated := some "01-01-2026 00:00:00 IST" }

/-- A roster document with an empty celebrity list. -/
def emptyDoc : Document :=
  { celebrities := [], last_updated := some "01-01-2026 00:00:00 IST" }

/-- The spec's extraction-salvage example: a fenced JSON object with
surrounding prose. -/
def fencedText : String :=
  "Sure!\n```json\n\x7b\"A\": 5, \"B\": -2\x7d\n```\nThanks."

/-- A celebrity whose stored score has three decimal places. -/
def milliCeleb : Celeb :=
  { name := "Jane Doe", aura_score := 123 / 1000, previous_aura_score := none,
    trend_7_days := some [1, 2, 3] }

/-- A prose-only model response, with no JSON document in it. -/
def proseText : String := "I cannot comply with that request."

/-- The exact JSON object of the spec's extraction-salvage example,
without fences or prose. -/
def objText : String := "\x7b\"A\": 5, \"B\": -2\x7d"

/-- A celebrity named `A`, score 10, no history. -/
def celebA : Celeb :=
  { name := "A", aura_score := 10, previous_aura_score := none,
    trend_7_days := none }

/-- A celebrity named `B`, score 20, no history. -/
def celebB : Celeb :=
  { name := "B", aura_score := 20, previous_aura_score := none,
    trend_7_days := none }

/-- A two-entity roster document. -/
def docAB : Document :=
  { celebrities := [celebA, celebB],
    last_updated := some "01-01-2026 00:00:00 IST" }

/-- A celebrity whose stored name is lower-case `a`. -/
def celebLowerA : Celeb :=
  { name := "a", aura_score := 10, previous_aura_score := none,
    trend_7_days := none }

/-- The expected record for `celebA` after delta 5 is applied. -/
def celebAafter : Celeb :=
  { name := "A", aura_score := 15, previous_aura_score := some 10,
    trend_7_days := some [15, 15, 15, 15, 15, 15, 15] }

/-- The expected record for `celebB` after delta -2 is applied. -/
def celebBafter : Celeb :=
  { name := "B", aura_score := 18, previous_aura_score := some 20,
    trend_7_days := some [18, 18, 18, 18, 18, 18, 18] }

theorem sliceLast6_length_le (xs : List ℚ) : (sliceLast6 xs).length ≤ 6 := by
  simp only [sliceLast6, List.length_drop]
  omega

theorem applyDelta_trend (c : Celeb) (d : ℚ) :
    (applyDelta c d).trend_7_days =
      some (sliceLast6 (c.trend_7_days.getD
          (List.replicate 7 (applyDelta c d).aura_score)) ++
        [(applyDelta c d).aura_score]) := rfl

theorem trendGood_applyDelta (c : Celeb) (d : ℚ) :
    ∃ t, (applyDelta c d).trend_7_days = some t ∧ t.length ≤ 7 ∧
      t.getLast? = some (applyDelta c d).aura_score := by
  refine ⟨_, applyDelta_trend c d, ?_, List.getLast?_concat _⟩
  have := sliceLast6_length_le
    (c.trend_7_days.getD (List.replicate 7 (applyDelta c d).aura_score))
  simp only [List.length_append, List.length_cons, List.length_nil]
  omega

theorem trendGood_foldl (ds : List ℚ) (c : Celeb)
    (h : ∃ t, c.trend_7_days = some t ∧ t.length ≤ 7 ∧
      t.getLast? = some c.aura_score) :
    ∃ t, (ds.foldl applyDelta c).trend_7_days = some t ∧ t.length ≤ 7 ∧
      t.getLast? = some (ds.foldl applyDelta c).aura_score := by
  induction ds generalizing c with
  | nil => exact h
  | cons d ds ih => exact ih (applyDelta c d) (trendGood_applyDelta c d)

theorem updateCeleb_of_absent (c : Celeb) (m : List (String × Json))
    (h : ∀ p ∈ m, p.1 ≠ c.name) :
    updateCeleb m c = Except.ok (applyDelta c 0) := by
  have hget : dictGet m c.name (Json.num 0) = Json.num 0 := by
    unfold dictGet
    have : m.reverse.find? (fun kv => kv.1 = c.name) = none := by
      rw [List.find?_eq_none]
      intro p hp
      simp only [decide_eq_true_eq]
      exact h p (List.mem_reverse.mp hp)
    rw [this]
  unfold updateCeleb
  rw [hget]
  rfl

/-! ## Claim theorems -/

/-- C1 (counterexample): on a concrete one-entity roster, a gateway
failure makes the process exit with a non-zero status and write nothing
at all — contradicting the claim that the cycle degrades to a
timestamp-only persist with exit status 0. -/
theorem C1_cex :
    (update_aura_scores (Except.ok docJane) (Except.error ())
        "02-01-2026 00:00:00 IST").exitCode ≠ 0 ∧
    (update_aura_scores (Except.ok docJane) (Except.error ())
        "02-01-2026 00:00:00 IST").written = none := by
  refine ⟨?_, rfl⟩
  decide

/-- C1 (amended): for every non-empty roster, a failure of the single
model-gateway call aborts the cycle: no score updates happen, nothing is
written (so `last_refreshed` is not stamped), and the process exits with
status 1. -/
theorem C1_gateway_failure_aborts (doc : Document) (now : String)
    (h : doc.celebrities ≠ []) :
    update_aura_scores (Except.ok doc) (Except.error ()) now =
      { exitCode := 1, written := none } := by
  have hE : doc.celebrities.isEmpty = false := by
    cases hc : doc.celebrities with
    | nil => exact absurd hc h
    | cons a l => rfl
  simp [update_aura_scores, hE]

/-- C1 (witness): the amended theorem applied to a concrete one-entity
roster. -/
theorem C1_gateway_failure_aborts_witness :
    update_aura_scores (Except.ok docJane) (Except.error ())
      "02-01-2026 00:00:00 IST" = { exitCode := 1, written := none } :=
  C1_gateway_failure_aborts docJane "02-01-2026 00:00:00 IST" (by decide)

/-- C2 (counterexample): on a concrete one-entity roster, a model
response with no recoverable JSON makes the process exit with a non-zero
status and write nothing — contradicting the claim that the document is
still persisted with `last_refreshed` updated. -/
theorem C2_cex :
    (update_aura_scores (Except.ok docJane)
        (Except.ok { text := proseText, partText := proseText })
        "02-01-2026 00:05:00 IST").exitCode ≠ 0 ∧
    (update_aura_scores (Except.ok docJane)
        (Except.ok { text := proseText, partText := proseText })
        "02-01-2026 00:05:00 IST").written = none := by
  refine ⟨?_, rfl⟩
  decide

/-- C2 (amended): for every non-empty roster and non-empty model
response whose stripped text does not parse as JSON, the cycle is
treated exactly like a gateway failure — which here means it aborts with
exit status 1 and no document write, the same outcome as a failed call.
-/
theorem C2_parse_failure_aborts (doc : Document) (resp : Response)
    (now : String) (h : doc.celebrities ≠ [])
    (ht : ¬ (resp.text = "" ∨ resp.partText = ""))
    (hp : jsonLoads (pyStrip resp.text) = none) :
    update_aura_scores (Except.ok doc) (Except.ok resp) now =
        { exitCode := 1, written := none } ∧
    update_aura_scores (Except.ok doc) (Except.ok resp) now =
      update_aura_scores (Except.ok doc) (Except.error ()) now := by
  have hE : doc.celebrities.isEmpty = false := by
    cases hc : doc.celebrities with
    | nil => exact absurd hc h
    | cons a l => rfl
  constructor
  · simp [update_aura_scores, hE, ht, hp]
  · simp [update_aura_scores, hE, ht, hp]

/-- C2 (witness): the amended theorem applied to a concrete roster and a
concrete prose-only response. -/
theorem C2_parse_failure_aborts_witness :
    update_aura_scores (Except.ok docJane)
        (Except.ok { text := proseText, partText := proseText })
        "02-01-2026 00:05:00 IST" =
        { exitCode := 1, written := none } ∧
    update_aura_scores (Except.ok docJane)
        (Except.ok { text := proseText, partText := proseText })
        "02-01-2026 00:05:00 IST" =
      update_aura_scores (Except.ok docJane) (Except.error ())
        "02-01-2026 00:05:00 IST" :=
  C2_parse_failure_aborts docJane
    { text := proseText, partText := proseText }
    "02-01-2026 00:05:00 IST" (by decide) (by decide) (by rfl)

/-- C3: after any non-empty sequence of updates the trend list is
present, has length at most 7, and ends in the current score; a single
update seeds an absent trend to seven copies of the new score, and on a
present trend keeps at most the last six old values before appending the
new score. -/
theorem C3_trend_invariant (c : Celeb) (deltas : List ℚ)
    (h : deltas ≠ []) :
    (∃ t, (deltas.foldl applyDelta c).trend_7_days = some t ∧
        t.length ≤ 7 ∧
        t.getLast? = some (deltas.foldl applyDelta c).aura_score) ∧
    (∀ d, c.trend_7_days = none →
      (applyDelta c d).trend_7_days =
        some (List.replicate 7 (applyDelta c d).aura_score)) ∧
    (∀ d t0, c.trend_7_days = some t0 →
      (sliceLast6 t0).length ≤ 6 ∧
      (applyDelta c d).trend_7_days =
        some (sliceLast6 t0 ++ [(applyDelta c d).aura_score])) := by
  refine ⟨?_, ?_, ?_⟩
  · cases deltas with
    | nil => exact absurd rfl h
    | cons d ds =>
        exact trendGood_foldl ds (applyDelta c d) (trendGood_applyDelta c d)
  · intro d hnone
    rw [applyDelta_trend c d, hnone]
    simp [sliceLast6, List.replicate]
  · intro d t0 hsome
    refine ⟨sliceLast6_length_le t0, ?_⟩
    rw [applyDelta_trend c d, hsome]
    rfl

/-- C3 (witness): the invariant at a concrete entity and a one-element
delta sequence. -/
theorem C3_trend_invariant_witness :
    (∃ t, (([1] : List ℚ).foldl applyDelta janeDoe).trend_7_days = some t ∧
        t.length ≤ 7 ∧
        t.getLast? = some (([1] : List ℚ).foldl applyDelta janeDoe).aura_score) ∧
    (∀ d, janeDoe.trend_7_days = none →
      (applyDelta janeDoe d).trend_7_days =
        some (List.replicate 7 (applyDelta janeDoe d).aura_score)) ∧
    (∀ d t0, janeDoe.trend_7_days = some t0 →
      (sliceLast6 t0).length ≤ 6 ∧
      (applyDelta janeDoe d).trend_7_days =
        some (sliceLast6 t0 ++ [(applyDelta janeDoe d).aura_score])) :=
  C3_trend_invariant janeDoe [1] (by decide)

/-- C4: a matched numeric delta is applied as
`previous_score := old score` and `score := round(old + delta, 2)`; in
particular score 100 with delta -12.5 yields previous 100 and score
87.5. -/
theorem C4_delta_application (c : Celeb) (delta : ℚ) :
    updateCeleb [(c.name, Json.num delta)] c =
      Except.ok (applyDelta c delta) ∧
    (applyDelta c delta).previous_aura_score = some c.aura_score ∧
    (applyDelta c delta).aura_score = pyRound2 (c.aura_score + delta) ∧
    (applyDelta janeDoe (-25 / 2)).previous_aura_score = some 100 ∧
    (applyDelta janeDoe (-25 / 2)).aura_score = 175 / 2 := by
  refine ⟨?_, rfl, rfl, rfl, ?_⟩
  · simp [updateCeleb, dictGet, List.find?, pyFloat]
  · show pyRound2 (janeDoe.aura_score + -25 / 2) = 175 / 2
    norm_num [pyRound2, janeDoe]

/-- C5 (counterexample): a JSON `null` delta makes the coercion raise an
uncaught `TypeError`, which aborts the whole batch: the cycle exits 1
and nothing is written — contradicting the claim that coercion never
raises for a value of any type. -/
theorem C5_cex :
    updateCeleb [("Jane Doe", Json.null)] janeDoe =
      Except.error PyErr.typeError ∧
    update_aura_scores (Except.ok docJane)
        (Except.ok { text := "\x7b\"Jane Doe\": null\x7d", partText := "ok" })
        "02-01-2026 00:10:00 IST" =
      { exitCode := 1, written := none } := by
  exact ⟨rfl, rfl⟩

/-- C5 (amended): for a number, boolean, or string delta the coercion
never raises — an unparsable string falls back to delta 0.0 — but a
`null` delta raises `TypeError`, which is not caught and aborts the
batch. -/
theorem C5_coercion_amended (c : Celeb) (m : List (String × Json))
    (q : ℚ) (s : String) (b : Bool) :
    (dictGet m c.name (Json.num 0) = Json.str s → pyFloatStr s = none →
      updateCeleb m c = Except.ok (applyDelta c 0)) ∧
    (dictGet m c.name (Json.num 0) = Json.num q →
      updateCeleb m c = Except.ok (applyDelta c q)) ∧
    (dictGet m c.name (Json.num 0) = Json.bool b →
      updateCeleb m c = Except.ok (applyDelta c (if b then 1 else 0))) ∧
    (dictGet m c.name (Json.num 0) = Json.null →
      updateCeleb m c = Except.error PyErr.typeError) := by
  refine ⟨?_, ?_, ?_, ?_⟩
  · intro hstr hval
    unfold updateCeleb
    rw [hstr]
    simp [pyFloat, hval]
  · intro hnum
    unfold updateCeleb
    rw [hnum]
    rfl
  · intro hbool
    unfold updateCeleb
    rw [hbool]
    rfl
  · intro hnull
    unfold updateCeleb
    rw [hnull]
    rfl

/-- C5 (witness): the string `"n/a"` is coerced to delta 0.0 without
raising. -/
theorem C5_coercion_amended_witness :
    updateCeleb [("Jane Doe", Json.str "n/a")] janeDoe =
      Except.ok (applyDelta janeDoe 0) :=
  (C5_coercion_amended janeDoe [("Jane Doe", Json.str "n/a")] 0 "n/a"
      true).1 (by rfl) (by rfl)

/-- C6 (counterexample): on a concrete empty roster the cycle writes
nothing at all (it returns before the timestamp stamp and the persist)
— contradicting the claim that the document is still persisted with
`last_refreshed` updated. -/
theorem C6_cex :
    (update_aura_scores (Except.ok emptyDoc) (Except.error ())
        "02-01-2026 00:15:00 IST").written = none ∧
    (update_aura_scores (Except.ok emptyDoc) (Except.error ())
        "02-01-2026 00:15:00 IST").exitCode = 0 :=
  ⟨rfl, rfl⟩

/-- C6 (amended): for every roster document with an empty entity list,
the cycle skips the model call (the outcome is independent of the
gateway result) and also skips the persist: nothing is written, so the
on-disk document — `entities` and `last_refreshed` alike — is entirely
unchanged, and the process exits with status 0 as a valid non-error
outcome. -/
theorem C6_empty_roster_no_write (doc : Document)
    (gwRes : Except Unit Response) (now : String)
    (h : doc.celebrities = []) :
    update_aura_scores (Except.ok doc) gwRes now =
      { exitCode := 0, written := none } := by
  simp [update_aura_scores, h]

/-- C6 (witness): the amended theorem applied to a concrete empty
roster. -/
theorem C6_empty_roster_no_write_witness :
    update_aura_scores (Except.ok emptyDoc) (Except.error ())
      "02-01-2026 00:15:00 IST" = { exitCode := 0, written := none } :=
  C6_empty_roster_no_write emptyDoc (Except.error ())
    "02-01-2026 00:15:00 IST" (by rfl)

/-- C7 (counterexample): stored name `"Jane Doe"` with extracted key
`"jane doe"` is *not* matched: the entity receives delta 0.0 and keeps
score 100, while applying the key's delta 5 would have produced 105 —
contradicting the claim that lookup is case-normalized. -/
theorem C7_cex :
    updateCeleb [("jane doe", Json.num 5)] janeDoe =
      Except.ok (applyDelta janeDoe 0) ∧
    (applyDelta janeDoe 0).aura_score = 100 ∧
    pyRound2 (janeDoe.aura_score + 5) = 105 := by
  refine ⟨rfl, ?_, ?_⟩
  · show pyRound2 (janeDoe.aura_score + 0) = 100
    norm_num [pyRound2, janeDoe]
  · norm_num [pyRound2, janeDoe]

/-- C7 (amended): delta lookup is exact and case-sensitive: when no
mapping key equals the stored name character-for-character the entity
receives the default delta 0.0, and a key equal to the stored name is
matched and its delta applied. -/
theorem C7_exact_lookup (c : Celeb) (m : List (String × Json)) (q : ℚ)
    (h : ∀ p ∈ m, p.1 ≠ c.name) :
    updateCeleb m c = Except.ok (applyDelta c 0) ∧
    updateCeleb [(c.name, Json.num q)] c = Except.ok (applyDelta c q) := by
  refine ⟨updateCeleb_of_absent c m h, ?_⟩
  simp [updateCeleb, dictGet, List.find?, pyFloat]

/-- C7 (witness): the amended theorem at stored name `"Jane Doe"` and
mapping key `"jane doe"`. -/
theorem C7_exact_lookup_witness :
    updateCeleb [("jane doe", Json.num 5)] janeDoe =
      Except.ok (applyDelta janeDoe 0) ∧
    updateCeleb [(janeDoe.name, Json.num 5)] janeDoe =
      Except.ok (applyDelta janeDoe 5) :=
  C7_exact_lookup janeDoe [("jane doe", Json.num 5)] 5 (by decide)

/-- C8 (counterexample): on the spec's own salvage example — a fenced
JSON object surrounded by prose — the code's direct `json.loads` of the
stripped text fails, and the cycle aborts with exit 1 and no write,
instead of yielding the object's mapping as the claim states. -/
theorem C8_cex :
    jsonLoads (pyStrip fencedText) = none ∧
    update_aura_scores (Except.ok docJane)
        (Except.ok { text := fencedText, partText := "ok" })
        "02-01-2026 00:20:00 IST" =
      { exitCode := 1, written := none } :=
  ⟨rfl, rfl⟩

/-- C8 (amended): extraction is a direct JSON parse of the stripped
response text, with no brace-span salvage and no case normalization:
the bare object text parses to its mapping with keys as-is and the
deltas are applied, while the fenced-and-prose-wrapped variant fails to
parse, and a key differing from a stored name only in case is not
matched. -/
theorem C8_direct_parse :
    jsonLoads (pyStrip objText) =
      some (Json.obj [("A", Json.num 5), ("B", Json.num (-2))]) ∧
    update_aura_scores (Except.ok docAB)
        (Except.ok { text := objText, partText := "ok" })
        "02-01-2026 00:20:00 IST" =
      { exitCode := 0,
        written := some { celebrities := [celebAafter, celebBafter],
                          last_updated := some "02-01-2026 00:20:00 IST" } } ∧
    jsonLoads (pyStrip fencedText) = none ∧
    updateCeleb [("A", Json.num 5)] celebLowerA =
      Except.ok (applyDelta celebLowerA 0) := by
  refine ⟨?_, ?_, rfl, rfl⟩
  · simp +decide [objText, jsonLoads, parseValue, parseMembers,
      parseStringAux, parseNumber, takeDigits, digitsToNat, skipWs,
      pyStrip, pySpace]
  · simp +decide [update_aura_scores, docAB, celebA, celebB, celebAafter,
      celebBafter, celebLowerA, objText, jsonLoads, parseValue,
      parseMembers, parseStringAux, parseNumber, takeDigits, digitsToNat,
      skipWs, pyStrip, pySpace, updateCelebs, updateCeleb, dictGet,
      pyFloat, applyDelta, pyRound2, sliceLast6]
    norm_num

/-- C9 (counterexample): an entity whose stored score `0.123` has three
decimal places and whose name is absent from the mapping does *not*
keep its score: the zero-delta update rounds it to `0.12` —
contradicting the claim that the score is unchanged. -/
theorem C9_cex :
    updateCeleb [] milliCeleb = Except.ok (applyDelta milliCeleb 0) ∧
    milliCeleb.aura_score = 123 / 1000 ∧
    (applyDelta milliCeleb 0).aura_score = 3 / 25 ∧
    (3 / 25 : ℚ) ≠ 123 / 1000 := by
  refine ⟨rfl, rfl, ?_, by norm_num⟩
  show pyRound2 (milliCeleb.aura_score + 0) = 3 / 25
  norm_num [pyRound2, milliCeleb]

/-- C9 (amended): an entity absent from the mapping gets delta 0.0
without failing: `previous_score` becomes the prior score, the trend is
refreshed and ends in the new score, and the score becomes
`round(score, 2)` — equal to the prior score exactly when that score
already has at most two decimal places. -/
theorem C9_missing_coverage (c : Celeb) (m : List (String × Json))
    (h : ∀ p ∈ m, p.1 ≠ c.name) :
    updateCeleb m c = Except.ok (applyDelta c 0) ∧
    (applyDelta c 0).previous_aura_score = some c.aura_score ∧
    (applyDelta c 0).aura_score = pyRound2 c.aura_score ∧
    (pyRound2 c.aura_score = c.aura_score →
      (applyDelta c 0).aura_score = c.aura_score) ∧
    ∃ t, (applyDelta c 0).trend_7_days = some t ∧
      t.getLast? = some (applyDelta c 0).aura_score := by
  have hsc : (applyDelta c 0).aura_score = pyRound2 c.aura_score := by
    show pyRound2 (c.aura_score + 0) = pyRound2 c.aura_score
    rw [add_zero]
  refine ⟨updateCeleb_of_absent c m h, rfl, hsc, ?_, ?_⟩
  · intro hr
    rw [hsc, hr]
  · exact ⟨_, applyDelta_trend c 0, List.getLast?_concat _⟩

/-- C9 (witness): the amended theorem at a concrete entity with score
100 and an empty mapping. -/
theorem C9_missing_coverage_witness :
    updateCeleb [] janeDoe = Except.ok (applyDelta janeDoe 0) ∧
    (applyDelta janeDoe 0).previous_aura_score = some janeDoe.aura_score ∧
    (applyDelta janeDoe 0).aura_score = pyRound2 janeDoe.aura_score ∧
    (pyRound2 janeDoe.aura_score = janeDoe.aura_score →
      (applyDelta janeDoe 0).aura_score = janeDoe.aura_score) ∧
    ∃ t, (applyDelta janeDoe 0).trend_7_days = some t ∧
      t.getLast? = some (applyDelta janeDoe 0).aura_score :=
  C9_missing_coverage janeDoe [] (by simp)

theorem cycle_write_shape (lr : Except Unit Document)
    (gw : Except Unit Response) (now : String) :
    update_aura_scores lr gw now = { exitCode := 1, written := none } ∨
    update_aura_scores lr gw now = { exitCode := 0, written := none } ∨
    ∃ data resp changes newCelebs,
      lr = Except.ok data ∧ gw = Except.ok resp ∧
      jsonLoads (pyStrip resp.text) = some (Json.obj changes) ∧
      updateCelebs changes data.celebrities = Except.ok newCelebs ∧
      update_aura_scores lr gw now =
        { exitCode := 0,
          written := some { celebrities := newCelebs,
                            last_updated := some now } } := by
  unfold update_aura_scores
  rcases lr with _ | data
  · exact Or.inl rfl
  · dsimp only
    by_cases hE : data.celebrities.isEmpty
    · rw [if_pos hE]
      exact Or.inr (Or.inl rfl)
    · rw [if_neg hE]
      rcases gw with _ | resp
      · exact Or.inl rfl
      · dsimp only
        by_cases ht : resp.text = "" ∨ resp.partText = ""
        · rw [if_pos ht]
          exact Or.inl rfl
        · rw [if_neg ht]
          rcases hj : jsonLoads (pyStrip resp.text) with _ | j
          · exact Or.inl rfl
          · rcases j with _ | b | q | s | elems | changes
            · exact Or.inl rfl
            · exact Or.inl rfl
            · exact Or.inl rfl
            · exact Or.inl rfl
            · exact Or.inl rfl
            · dsimp only
              rcases hu : updateCelebs changes data.celebrities with e | nc
              · exact Or.inl rfl
              · exact Or.inr (Or.inr
                  ⟨data, resp, changes, nc, rfl, rfl, hj, hu, rfl⟩)

/-- C10: across the whole process (credential pre-flight included), a
non-zero exit always means nothing was written to the store, and
conversely any written document carries the fresh timestamp and arises
only after the load, the gateway call, the JSON extraction and every
per-entity update have all succeeded — the write is the final step. -/
theorem C10_write_only_after_full_cycle (apiKey : Option String)
    (configureOk : Bool) (loadRes : Except Unit Document)
    (gwRes : Except Unit Response) (now : String) :
    ((runProcess apiKey configureOk loadRes gwRes now).exitCode ≠ 0 →
      (runProcess apiKey configureOk loadRes gwRes now).written = none) ∧
    (∀ d, (runProcess apiKey configureOk loadRes gwRes now).written =
        some d →
      (runProcess apiKey configureOk loadRes gwRes now).exitCode = 0 ∧
      d.last_updated = some now ∧
      ∃ data resp changes,
        loadRes = Except.ok data ∧ gwRes = Except.ok resp ∧
        jsonLoads (pyStrip resp.text) = some (Json.obj changes) ∧
        updateCelebs changes data.celebrities =
          Except.ok d.celebrities) := by
  have hcycle :
      runProcess apiKey configureOk loadRes gwRes now =
          { exitCode := 1, written := none } ∨
      runProcess apiKey configureOk loadRes gwRes now =
        update_aura_scores loadRes gwRes now := by
    unfold runProcess
    rcases apiKey with _ | k
    · exact Or.inl rfl
    · dsimp only
      by_cases hk : k = ""
      · rw [if_pos hk]
        exact Or.inl rfl
      · rw [if_neg hk]
        cases configureOk
        · exact Or.inl rfl
        · exact Or.inr rfl
  rcases hcycle with hrun | hrun
  · rw [hrun]
    exact ⟨fun _ => rfl, fun d hd => by cases hd⟩
  · rw [hrun]
    rcases cycle_write_shape loadRes gwRes now with hc | hc |
      ⟨data, resp, changes, nc, h1, h2, h3, h4, hc⟩
    · rw [hc]
      exact ⟨fun _ => rfl, fun d hd => by cases hd⟩
    · rw [hc]
      exact ⟨fun hne => rfl, fun d hd => by cases hd⟩
    · rw [hc]
      refine ⟨fun hne => absurd rfl hne, fun d hd => ?_⟩
      have hdoc : d = { celebrities := nc, last_updated := some now } :=
        (Option.some_inj.mp hd).symm
      subst hdoc
      exact ⟨rfl, rfl, data, resp, changes, h1, h2, h3, h4⟩

/-- C10 (witness): the theorem applied at a concrete failing input (no
credential): non-zero exit and nothing written. -/
theorem C10_write_only_after_full_cycle_witness :
    (runProcess none true (Except.ok docJane) (Except.error ())
        "02-01-2026 00:25:00 IST").written = none :=
  (C10_write_only_after_full_cycle none true (Except.ok docJane)
      (Except.error ()) "02-01-2026 00:25:00 IST").1 (by decide)
